import Mathlib

/-
Verification of the TibcoGroq repository (a Streamlit front-end around Groq
chat completions for TIBCO BusinessWorks analysis).

Shallow embedding conventions:
* Python strings are modelled as `List Char`; byte buffers as `List (Fin 256)`.
* The regex substitutions of src/utils/formatters.py are embedded as
  deterministic scanners.  Each scanner is derived from the concrete pattern
  by resolving Python's leftmost / greedy / lazy backtracking statically;
  the derivation is documented at each definition.  The character classes
  \s, \w, \d are modelled over their ASCII extent ([ \t\n\r\x0b\x0c],
  [A-Za-z0-9_], [0-9]); the claims under scrutiny do not depend on the
  non-ASCII part of Python's (unicode-aware) classes.
* The Groq client of src/utils/groq_client.py is embedded with the remote
  chat-completion service abstracted as an oracle
  `CompletionRequest → Except String ChatCompletion`; an `Except.error`
  models the remote call raising an exception, and each operation records
  the request it issues so that "number of outbound calls" is observable.
* The Streamlit tab handlers of src/app.py are embedded as the pure
  decision logic that runs after the action button is pressed: validation,
  the client call, and the displayed messages.
-/

namespace TibcoGroq

/-! ## Character classes (Python `re` semantics, ASCII extent) -/

/-- Python regex class `\s` (ASCII extent): space, tab, newline, carriage
return, vertical tab, form feed.  Also used to model `str.strip()`. -/
def pySpace (c : Char) : Bool :=
  c = ' ' || c = '\t' || c = '\n' || c = '\r' || c = '\x0b' || c = '\x0c'

/-- Python regex class `\w` (ASCII extent): letters, digits, underscore. -/
def pyWord (c : Char) : Bool :=
  ('a' ≤ c && c ≤ 'z') || ('A' ≤ c && c ≤ 'Z') || ('0' ≤ c && c ≤ '9') || c = '_'

/-- Python regex class `\d` (ASCII extent): decimal digits. -/
def pyDigit (c : Char) : Bool :=
  '0' ≤ c && c ≤ '9'

/-- The part of a string before the next newline: what `(.+)` can span,
since `.` does not match a newline. -/
def takeNonNl (l : List Char) : List Char :=
  l.takeWhile (fun c => c ≠ '\n')

/-! ## `re.sub(r'^(#{1,3})\s*(.+)$', r'**\2**', s, flags=re.MULTILINE)`

Used by both `format_test_cases` and `format_complexity_analysis`
(src/utils/formatters.py lines 13 and 30, comment "Make headers bold").

Match resolution, derived from the pattern: a match attempt starts only at a
line start whose character is `#`.  `#{1,3}` greedily takes `k = min 3 run`
hashes (backtracking to fewer on failure); `\s*` greedily takes the following
whitespace run, which may span newlines.  If a non-whitespace character
follows the run, `(.+)$` captures from it to the end of its line (that
character is not a newline, and `$` holds before a newline or at the end, so
no further backtracking happens).  If the whitespace run reaches the end of
the string, `\s*` backtracks to the last non-newline whitespace character,
which `(.+)$` then captures alone; if the run is all newlines the attempt
with `k` hashes fails and `k-1` is tried. -/

/-- One match attempt of the header pattern at a line start beginning with
`#`, trying `k` hashes first and backtracking to fewer.  Returns the
replacement text (`**` capture `**`) and the unconsumed rest. -/
def hashMatch : Nat → List Char → Option (List Char × List Char)
  | 0, _ => none
  | k + 1, l =>
    let rest := l.drop (k + 1)
    let ws := rest.takeWhile pySpace
    match rest.drop ws.length with
    | c :: after =>
      let cap := takeNonNl (c :: after)
      some ('*' :: '*' :: cap ++ ['*', '*'], (c :: after).drop cap.length)
    | [] =>
      match ws.reverse.dropWhile (fun c => c = '\n') with
      | c :: _ => some (['*', '*', c, '*', '*'],
          (ws.reverse.takeWhile (fun c => c = '\n')).reverse)
      | [] => hashMatch k l

/-- Left-to-right scan of the header substitution.  The fuel only bounds the
number of scan steps; each step consumes at least one character, so
`length + 1` fuel always suffices. -/
def hdrScan : Nat → Bool → List Char → List Char
  | 0, _, l => l
  | _, _, [] => []
  | fuel + 1, lineStart, c :: rest =>
    if lineStart && c = '#' then
      match hashMatch (min 3 ((c :: rest).takeWhile (fun x => x = '#')).length) (c :: rest) with
      | some (rep, rest') => rep ++ hdrScan fuel false rest'
      | none => c :: hdrScan fuel false rest
    else c :: hdrScan fuel (c = '\n') rest

/-- `re.sub(r'^(#{1,3})\s*(.+)$', r'**\2**', s, flags=re.MULTILINE)`. -/
def makeHeadersBold (l : List Char) : List Char :=
  hdrScan (l.length + 1) true l

/-! ## `re.sub(r'^(\d+\.)\s*\*\*(.+?)\*\*', r'### \1 \2', s, flags=re.MULTILINE)`

Used by both formatters (src/utils/formatters.py lines 16 and 33, comment
"Format numbered sections").  Match resolution: at a line start beginning
with a digit, `\d+` must take the whole digit run (backtracking leaves a
digit where the literal `.` is required); then `\s*` must take the whole
whitespace run, possibly spanning newlines (backtracking leaves whitespace
where the literal `*` is required); then the literal `**`; then the lazy
`(.+?)` takes the shortest non-empty newline-free stretch followed by the
literal `**`. -/

/-- Lazy capture of `(.+?)\*\*`: the shortest non-empty prefix of
newline-free characters that is followed by `**`.  Returns the capture and
the rest after the closing `**`; fails on a newline or string end. -/
def starCap : List Char → List Char → Option (List Char × List Char)
  | _, [] => none
  | acc, c :: rest =>
    if c = '\n' then none
    else match rest with
      | '*' :: '*' :: r => some ((c :: acc).reverse, r)
      | _ => starCap (c :: acc) rest

/-- One match attempt of the numbered-section pattern at a line start
beginning with a digit. -/
def numMatch (l : List Char) : Option (List Char × List Char) :=
  let ds := l.takeWhile pyDigit
  match l.drop ds.length with
  | '.' :: r1 =>
    let ws := r1.takeWhile pySpace
    match r1.drop ws.length with
    | '*' :: '*' :: r2 =>
      match starCap [] r2 with
      | some (cap, rest) => some ('#' :: '#' :: '#' :: ' ' :: ds ++ '.' :: ' ' :: cap, rest)
      | none => none
    | _ => none
  | _ => none

/-- Left-to-right scan of the numbered-section substitution. -/
def numScan : Nat → Bool → List Char → List Char
  | 0, _, l => l
  | _, _, [] => []
  | fuel + 1, lineStart, c :: rest =>
    if lineStart && pyDigit c then
      match numMatch (c :: rest) with
      | some (rep, rest') => rep ++ numScan fuel false rest'
      | none => c :: numScan fuel false rest
    else c :: numScan fuel (c = '\n') rest

/-- `re.sub(r'^(\d+\.)\s*\*\*(.+?)\*\*', r'### \1 \2', s, flags=re.MULTILINE)`. -/
def formatNumberedSections (l : List Char) : List Char :=
  numScan (l.length + 1) true l

/-! ## `re.sub(r'\n\n\n+', '\n\n', s)`

The final substitution of both formatters (src/utils/formatters.py lines 19
and 44, comments "Ensure proper spacing ...").  A leftmost match takes a
whole maximal run of at least three newlines (the `+` is greedy) and
replaces it by two newlines; scanning resumes after the run. -/

/-- The blank-line collapse as a two-mode scanner: in mode `false` it copies
characters until it sees three consecutive newlines, emits two newlines and
switches to mode `true`, which discards the remainder of the newline run. -/
def collapseScan : Bool → List Char → List Char
  | _, [] => []
  | true, '\n' :: rest => collapseScan true rest
  | true, c :: rest => c :: collapseScan false rest
  | false, '\n' :: '\n' :: '\n' :: rest => '\n' :: '\n' :: collapseScan true rest
  | false, c :: rest => c :: collapseScan false rest

/-- `re.sub(r'\n\n\n+', '\n\n', s)`. -/
def collapseBlankLines (l : List Char) : List Char :=
  collapseScan false l

/-! ## `re.sub(r'(\w+\s+score:?\s*\d+(?:\.\d+)?(?:/\d+)?)', r'`\1`', s, flags=re.IGNORECASE)`

Only in `format_complexity_analysis` (src/utils/formatters.py line 36,
comment "Highlight metrics and scores").  Match resolution at a position:
`\w+` must take the whole word run (non-empty), `\s+` the whole whitespace
run (non-empty), then the literal `score` case-insensitively; `:?` takes a
colon when present; `\s*` the whole whitespace run; `\d+` the whole digit
run (non-empty); each optional group is taken exactly when its full text
(`.` or `/` followed by at least one digit) is present.  The capture keeps
the original characters (case included). -/

/-- The backquote character U+0060, used by the replacement templates of the
two highlighting substitutions. -/
def backquote : Char := Char.ofNat 96

/-- Case-insensitive literal match (the literal is given in lower case).
Returns the matched original characters and the rest. -/
def ciLit : List Char → List Char → Option (List Char × List Char)
  | [], l => some ([], l)
  | _ :: _, [] => none
  | t :: ts, c :: cs =>
    if c.toLower = t then
      match ciLit ts cs with
      | some (m, r) => some (c :: m, r)
      | none => none
    else none

/-- One match attempt of the score pattern at a position. -/
def scoreMatch (l : List Char) : Option (List Char × List Char) :=
  let w := l.takeWhile pyWord
  if w.isEmpty then none else
  let r1 := l.drop w.length
  let ws1 := r1.takeWhile pySpace
  if ws1.isEmpty then none else
  match ciLit "score".data (r1.drop ws1.length) with
  | none => none
  | some (scoreTxt, r2) =>
    let (colon, r3) := match r2 with
      | ':' :: t => ([':'], t)
      | _ => ([], r2)
    let ws2 := r3.takeWhile pySpace
    let r4 := r3.drop ws2.length
    let ds := r4.takeWhile pyDigit
    if ds.isEmpty then none else
    let r5 := r4.drop ds.length
    let (frac, r6) := match r5 with
      | '.' :: t =>
        let fd := t.takeWhile pyDigit
        if fd.isEmpty then (([] : List Char), r5) else ('.' :: fd, t.drop fd.length)
      | _ => ([], r5)
    let (slash, r7) := match r6 with
      | '/' :: t =>
        let sd := t.takeWhile pyDigit
        if sd.isEmpty then (([] : List Char), r6) else ('/' :: sd, t.drop sd.length)
      | _ => ([], r6)
    some (backquote :: (w ++ ws1 ++ scoreTxt ++ colon ++ ws2 ++ ds ++ frac ++ slash) ++ [backquote], r7)

/-- Left-to-right scan of the score substitution (no anchors). -/
def scoreScan : Nat → List Char → List Char
  | 0, l => l
  | _, [] => []
  | fuel + 1, c :: rest =>
    match scoreMatch (c :: rest) with
    | some (rep, rest') => rep ++ scoreScan fuel rest'
    | none => c :: scoreScan fuel rest

/-- `re.sub(r'(\w+\s+score:?\s*\d+(?:\.\d+)?(?:/\d+)?)', r'`\1`', s, flags=re.IGNORECASE)`. -/
def highlightScores (l : List Char) : List Char :=
  scoreScan (l.length + 1) l

/-! ## `re.sub(r'(complexity:?\s*(?:low|medium|high))', r'`\1`', s, flags=re.IGNORECASE)`

Only in `format_complexity_analysis` (src/utils/formatters.py line 37).
Match resolution at a position: the literal `complexity` case-insensitively;
`:?` takes a colon when present; `\s*` the whole whitespace run; then the
first of `low`, `medium`, `high` that matches case-insensitively. -/

/-- One match attempt of the complexity pattern at a position. -/
def complexityMatch (l : List Char) : Option (List Char × List Char) :=
  match ciLit "complexity".data l with
  | none => none
  | some (cw, r1) =>
    let (colon, r2) := match r1 with
      | ':' :: t => ([':'], t)
      | _ => ([], r1)
    let ws := r2.takeWhile pySpace
    let r3 := r2.drop ws.length
    match ciLit "low".data r3 with
    | some (lv, r4) => some (backquote :: (cw ++ colon ++ ws ++ lv) ++ [backquote], r4)
    | none =>
      match ciLit "medium".data r3 with
      | some (lv, r4) => some (backquote :: (cw ++ colon ++ ws ++ lv) ++ [backquote], r4)
      | none =>
        match ciLit "high".data r3 with
        | some (lv, r4) => some (backquote :: (cw ++ colon ++ ws ++ lv) ++ [backquote], r4)
        | none => none

/-- Left-to-right scan of the complexity substitution (no anchors). -/
def complexityScan : Nat → List Char → List Char
  | 0, l => l
  | _, [] => []
  | fuel + 1, c :: rest =>
    match complexityMatch (c :: rest) with
    | some (rep, rest') => rep ++ complexityScan fuel rest'
    | none => c :: complexityScan fuel rest

/-- `re.sub(r'(complexity:?\s*(?:low|medium|high))', r'`\1`', s, flags=re.IGNORECASE)`. -/
def highlightComplexity (l : List Char) : List Char :=
  complexityScan (l.length + 1) l

/-! ## `re.sub(r'\b(LOW|MEDIUM|HIGH|CRITICAL)\b', r'**\1**', s)`

Only in `format_complexity_analysis` (src/utils/formatters.py line 40,
comment "Format risk levels").  Each alternative starts and ends with a word
character, so the word boundaries amount to: the previous character (if any)
is not a word character, and the character after the literal (if any) is not
a word character.  The alternatives have pairwise distinct first letters, so
at most one can match at a position. -/

/-- Case-sensitive literal match returning the rest. -/
def litMatch : List Char → List Char → Option (List Char)
  | [], l => some l
  | _ :: _, [] => none
  | t :: ts, c :: cs => if c = t then litMatch ts cs else none

/-- One alternative of the risk pattern: the exact word followed by a
trailing word boundary. -/
def riskTry (w : List Char) (l : List Char) : Option (List Char × List Char) :=
  match litMatch w l with
  | none => none
  | some rest =>
    match rest with
    | [] => some ('*' :: '*' :: w ++ ['*', '*'], [])
    | c :: _ => if pyWord c then none else some ('*' :: '*' :: w ++ ['*', '*'], rest)

/-- One match attempt of the risk pattern at a position with a leading word
boundary. -/
def riskMatch (l : List Char) : Option (List Char × List Char) :=
  match riskTry "LOW".data l with
  | some r => some r
  | none =>
    match riskTry "MEDIUM".data l with
    | some r => some r
    | none =>
      match riskTry "HIGH".data l with
      | some r => some r
      | none => riskTry "CRITICAL".data l

/-- Left-to-right scan of the risk substitution; the flag records whether
the previous character was a word character (no leading word boundary
then). -/
def riskScan : Nat → Bool → List Char → List Char
  | 0, _, l => l
  | _, _, [] => []
  | fuel + 1, prevWord, c :: rest =>
    if prevWord then c :: riskScan fuel (pyWord c) rest
    else
      match riskMatch (c :: rest) with
      | some (rep, rest') => rep ++ riskScan fuel true rest'
      | none => c :: riskScan fuel (pyWord c) rest

/-- `re.sub(r'\b(LOW|MEDIUM|HIGH|CRITICAL)\b', r'**\1**', s)`. -/
def formatRiskLevels (l : List Char) : List Char :=
  riskScan (l.length + 1) false l

/-! ## The two formatters (src/utils/formatters.py) -/

/-- Placeholder returned by `format_test_cases` for a falsy argument. -/
def noTestCasesMsg : List Char := "No test cases generated.".data

/-- Placeholder returned by `format_complexity_analysis` for a falsy
argument. -/
def noAnalysisMsg : List Char := "No analysis results generated.".data

/-- `format_test_cases` (src/utils/formatters.py lines 4-21).  The falsy
arguments `None` and `""` are `none` and `some []`. -/
def format_test_cases : Option (List Char) → List Char
  | none => noTestCasesMsg
  | some raw =>
    if raw = [] then noTestCasesMsg
    else collapseBlankLines (formatNumberedSections (makeHeadersBold raw))

/-- `format_complexity_analysis` (src/utils/formatters.py lines 23-46). -/
def format_complexity_analysis : Option (List Char) → List Char
  | none => noAnalysisMsg
  | some raw =>
    if raw = [] then noAnalysisMsg
    else collapseBlankLines (formatRiskLevels (highlightComplexity
      (highlightScores (formatNumberedSections (makeHeadersBold raw)))))

/-! ## Derived observations and the specification's reading of the collapse -/

/-- The final blank-line substitution in the specification's words: every
maximal run of `k ≥ 3` consecutive newline characters becomes exactly one
blank line (two newlines); shorter runs are unchanged (`min k 2`). -/
def collapseRunsSpec : List Char → List Char
  | [] => []
  | c :: rest =>
    if c = '\n' then
      List.replicate (min ((c :: rest).takeWhile (fun x => x = '\n')).length 2) '\n' ++
        collapseRunsSpec ((c :: rest).dropWhile (fun x => x = '\n'))
    else c :: collapseRunsSpec rest
termination_by l => l.length
decreasing_by
  · rename_i hc
    subst hc
    simp only [List.dropWhile_cons, show decide ('\n' = '\n') = true from rfl, if_true,
      List.length_cons]
    exact Nat.lt_succ_of_le (List.Sublist.length_le (List.dropWhile_sublist _))
  · simp only [List.length_cons]
    omega

/-- `true` iff the string starts with two newline characters. -/
def startsTwoNl : List Char → Bool
  | '\n' :: '\n' :: _ => true
  | _ => false

/-- `true` iff the string starts with a newline character. -/
def headIsNl : List Char → Bool
  | '\n' :: _ => true
  | _ => false

/-- `true` iff the string contains three consecutive newline characters,
i.e. a run of three or more newlines (two or more consecutive blank
lines). -/
def hasTriple : List Char → Bool
  | [] => false
  | c :: rest => (c = '\n' && startsTwoNl rest) || hasTriple rest

/-- `true` iff the string contains four consecutive newline characters,
i.e. a run of three or more consecutive blank lines. -/
def hasFourNl : List Char → Bool
  | '\n' :: '\n' :: '\n' :: '\n' :: _ => true
  | _ :: rest => hasFourNl rest
  | [] => false

/-- A string counts as "already well-formatted" for the cosmetic formatter
when it is itself an output of `format_complexity_analysis`. -/
def wellFormattedComplexity (s : List Char) : Prop :=
  ∃ raw, format_complexity_analysis raw = s

/-! ## Groq client (src/utils/groq_client.py)

The remote chat-completion service is abstracted as an oracle
`svc : CompletionRequest → Except String ChatCompletion`: `Except.error e`
models `client.chat.completions.create` raising an exception whose
`str(...)` is `e`, and `Except.ok` models a response object.  Each
operation's `ClientRun` records the requests it issued, the `st.error`
messages it displayed, and its return value (`none` for Python `None`). -/

/-- One chat message, as the `{"role": ..., "content": ...}` dictionaries of
src/utils/groq_client.py. -/
structure ChatMessage where
  role : String
  content : String

/-- The arguments of one `client.chat.completions.create` call.  The float
temperature is modelled as a rational. -/
structure CompletionRequest where
  messages : List ChatMessage
  model : String
  temperature : ℚ
  max_tokens : Nat

/-- The `message` field of a response choice. -/
structure CompletionMessage where
  content : String

/-- One element of the `choices` list of a completion response. -/
structure Choice where
  message : CompletionMessage

/-- A completion response object. -/
structure ChatCompletion where
  choices : List Choice

/-- Observable outcome of one client operation: the completion requests it
issued, the error messages it displayed via `st.error`, and its return
value. -/
structure ClientRun where
  requests : List CompletionRequest
  errors : List String
  result : Option String

/-- The `try`/`except` body shared by the five client operations
(src/utils/groq_client.py, e.g. lines 35-50): issue the single
`chat.completions.create` call, return `response.choices[0].message.content`,
and on any exception display `f"Groq API Error: {str(e)}"` via `st.error`
and return `None`.  When `choices` is empty the indexing raises `IndexError`
(whose `str` is "list index out of range"), caught by the same bare
`except Exception` branch. -/
def runCompletion (svc : CompletionRequest → Except String ChatCompletion)
    (req : CompletionRequest) : ClientRun :=
  match svc req with
  | Except.error e => ⟨[req], ["Groq API Error: " ++ e], none⟩
  | Except.ok resp =>
    match resp.choices with
    | [] => ⟨[req], ["Groq API Error: list index out of range"], none⟩
    | choice :: _ => ⟨[req], [], some choice.message.content⟩

/-- The user prompt interpolated by `GroqClient.generate_test_cases`
(src/utils/groq_client.py lines 9-50). -/
def generate_test_cases_prompt (code : String) (test_types : List String)
    (complexity_level : String) : String :=
  "
You are an expert TIBCO BusinessWorks developer and test engineer. Analyze the following TIBCO code/XML and generate comprehensive test cases.

TIBCO Code/XML:
"
  ++ code
  ++ "

Test Requirements:
- Test Types: "
  ++ String.intercalate ", " test_types
  ++ "
- Complexity Level: "
  ++ complexity_level
  ++ "

Please provide:
1. **Test Case Overview** - Brief summary of the process being tested
2. **Input Data Sets** - Specific input values for each test scenario
3. **Expected Results** - What the expected output should be for each input
4. **Test Steps** - Detailed steps to execute each test
5. **Edge Cases** - Boundary conditions and edge scenarios
6. **Error Scenarios** - Invalid inputs and error handling tests
7. **Validation Points** - Key checkpoints to verify during testing

Format the response in clear sections with bullet points and code examples where applicable.
Focus on TIBCO BusinessWorks specific testing patterns and best practices.
"

/-- The single `chat.completions.create` request issued by
`GroqClient.generate_test_cases`. -/
def generate_test_cases_request (code : String) (test_types : List String)
    (complexity_level model : String) : CompletionRequest :=
  { messages :=
      [ ⟨"system", "You are an expert TIBCO BusinessWorks developer specializing in comprehensive test case generation."⟩
      , ⟨"user", generate_test_cases_prompt code test_types complexity_level⟩ ]
  , model := model
  , temperature := 3 / 10
  , max_tokens := 4000 }

/-- `GroqClient.generate_test_cases` (src/utils/groq_client.py lines 9-50). -/
def GroqClient.generate_test_cases (svc : CompletionRequest → Except String ChatCompletion)
    (code : String) (test_types : List String)
    (complexity_level model : String) : ClientRun :=
  runCompletion svc (generate_test_cases_request code test_types complexity_level model)

/-- The user prompt interpolated by `GroqClient.analyze_complexity`
(src/utils/groq_client.py lines 92-157). -/
def analyze_complexity_prompt (code : String) (analysis_types : List String)
    (detail_level : String) : String :=
  "
You are an expert TIBCO BusinessWorks architect and code reviewer. Analyze the following TIBCO code/XML for complexity, patterns, and potential issues.

TIBCO Code/XML:
"
  ++ code
  ++ "

Analysis Requirements:
- Analysis Areas: "
  ++ String.intercalate ", " analysis_types
  ++ "
- Detail Level: "
  ++ detail_level
  ++ "

Please provide a comprehensive analysis covering:

1. **Complexity Metrics**
   - Cyclomatic complexity score
   - Nesting levels and depth
   - Number of decision points

2. **Architecture Analysis**
   - Process flow complexity
   - Component interactions
   - Data transformation complexity

3. **Dependency Analysis**
   - External dependencies
   - Coupling between components
   - Resource dependencies

4. **Anti-pattern Detection**
   - Common TIBCO anti-patterns
   - Code smells specific to BusinessWorks
   - Maintainability issues

5. **Performance Implications**
   - Potential bottlenecks
   - Memory usage concerns
   - Processing efficiency

6. **Recommendations**
   - Refactoring suggestions
   - Best practice improvements
   - Optimization opportunities

7. **Risk Assessment**
   - Maintainability score (1-10)
   - Complexity rating (Low/Medium/High)
   - Priority areas for improvement

Format the response with clear sections, metrics, and actionable recommendations.
Use TIBCO BusinessWorks terminology and best practices throughout.
"

/-- The single `chat.completions.create` request issued by
`GroqClient.analyze_complexity`. -/
def analyze_complexity_request (code : String) (analysis_types : List String)
    (detail_level model : String) : CompletionRequest :=
  { messages :=
      [ ⟨"system", "You are an expert TIBCO BusinessWorks architect specializing in code analysis and complexity assessment."⟩
      , ⟨"user", analyze_complexity_prompt code analysis_types detail_level⟩ ]
  , model := model
  , temperature := 2 / 10
  , max_tokens := 4000 }

/-- `GroqClient.analyze_complexity` (src/utils/groq_client.py lines 92-157). -/
def GroqClient.analyze_complexity (svc : CompletionRequest → Except String ChatCompletion)
    (code : String) (analysis_types : List String)
    (detail_level model : String) : ClientRun :=
  runCompletion svc (analyze_complexity_request code analysis_types detail_level model)

/-- The user prompt interpolated by `GroqClient.optimize_process`
(src/utils/groq_client.py lines 204-270). -/
def optimize_process_prompt (code : String) (optimization_areas : List String)
    (optimization_level : String) (include_code_examples : Bool) : String :=
  "
You are an expert TIBCO BusinessWorks performance architect and optimization specialist. Analyze the following TIBCO code/XML and provide comprehensive optimization recommendations.

TIBCO Code/XML:
"
  ++ code
  ++ "

Optimization Requirements:
- Focus Areas: "
  ++ String.intercalate ", " optimization_areas
  ++ "
- Optimization Level: "
  ++ optimization_level
  ++ "
- Include Code Examples: "
  ++ (if include_code_examples then "True" else "False")
  ++ "

Please provide detailed optimization analysis covering:

1. **Performance Bottlenecks**
   - Identify current performance issues
   - Resource utilization problems
   - Scalability limitations

2. **Memory Optimization**
   - Memory usage patterns
   - Object lifecycle management
   - Garbage collection optimization

3. **Connection Management**
   - Connection pooling strategies
   - Resource sharing opportunities
   - Database connection optimization

4. **Async Processing**
   - Opportunities for asynchronous execution
   - Parallel processing recommendations  
   - Queue management strategies

5. **Error Handling Optimization**
   - Efficient error processing
   - Graceful degradation patterns
   - Recovery mechanisms

6. **Caching Strategies**
   - Data caching opportunities
   - Result set caching
   - Configuration caching

7. **Optimization Recommendations**
   - Specific code changes
   - Configuration adjustments
   - Architecture improvements
   "
  ++ (if include_code_examples then "- Complete optimized code examples" else "- High-level implementation guidance")
  ++ "

8. **Performance Metrics**
   - Expected performance improvements
   - Resource usage reduction estimates
   - Scalability enhancements

Format with clear sections, specific recommendations, and measurable outcomes.
Focus on TIBCO BusinessWorks best practices and proven optimization patterns.
"

/-- The single `chat.completions.create` request issued by
`GroqClient.optimize_process`. -/
def optimize_process_request (code : String) (optimization_areas : List String)
    (optimization_level : String) (include_code_examples : Bool) (model : String) : CompletionRequest :=
  { messages :=
      [ ⟨"system", "You are an expert TIBCO BusinessWorks performance architect specializing in process optimization and performance tuning."⟩
      , ⟨"user", optimize_process_prompt code optimization_areas optimization_level include_code_examples⟩ ]
  , model := model
  , temperature := 2 / 10
  , max_tokens := 4000 }

/-- `GroqClient.optimize_process` (src/utils/groq_client.py lines 204-270). -/
def GroqClient.optimize_process (svc : CompletionRequest → Except String ChatCompletion)
    (code : String) (optimization_areas : List String)
    (optimization_level : String) (include_code_examples : Bool) (model : String) : ClientRun :=
  runCompletion svc (optimize_process_request code optimization_areas optimization_level include_code_examples model)

/-- The user prompt interpolated by `GroqClient.generate_documentation`
(src/utils/groq_client.py lines 272-349). -/
def generate_documentation_prompt (code : String) (doc_types : List String)
    (doc_format : String) (include_diagrams : Bool) : String :=
  "
You are an expert TIBCO BusinessWorks technical writer and documentation specialist. Generate comprehensive documentation for the following TIBCO code/XML.

TIBCO Code/XML:
"
  ++ code
  ++ "

Documentation Requirements:
- Documentation Types: "
  ++ String.intercalate ", " doc_types
  ++ "
- Format: "
  ++ doc_format
  ++ "
- Include Diagrams: "
  ++ (if include_diagrams then "True" else "False")
  ++ "

Please generate documentation covering:

1. **Technical Overview**
   - Process purpose and functionality
   - High-level architecture
   - Key components and their roles

2. **API Documentation**
   - Input/output specifications
   - Service interfaces
   - Data contracts and schemas

3. **Component Details**
   - Individual component descriptions
   - Configuration parameters
   - Dependencies and relationships

4. **Data Flow**
   - Data transformation steps
   - Processing pipeline
   "
  ++ (if include_diagrams then "- ASCII flow diagrams" else "- Textual flow descriptions")
  ++ "

5. **Configuration Reference**
   - Required settings
   - Optional parameters
   - Environment-specific configurations

6. **Deployment Guide**
   - Installation procedures
   - Environment setup
   - Deployment best practices

7. **Troubleshooting**
   - Common issues and solutions
   - Error codes and meanings
   - Debugging procedures

8. **Performance Guidelines**
   - Tuning recommendations
   - Monitoring strategies
   - Capacity planning

Format the documentation in "
  ++ doc_format
  ++ " format with proper structure, headers, and formatting.
Make it comprehensive yet readable for both technical and business stakeholders.
"

/-- The single `chat.completions.create` request issued by
`GroqClient.generate_documentation`. -/
def generate_documentation_request (code : String) (doc_types : List String)
    (doc_format : String) (include_diagrams : Bool) (model : String) : CompletionRequest :=
  { messages :=
      [ ⟨"system", "You are an expert TIBCO BusinessWorks technical writer specializing in comprehensive documentation generation."⟩
      , ⟨"user", generate_documentation_prompt code doc_types doc_format include_diagrams⟩ ]
  , model := model
  , temperature := 3 / 10
  , max_tokens := 4000 }

/-- `GroqClient.generate_documentation` (src/utils/groq_client.py lines 272-349). -/
def GroqClient.generate_documentation (svc : CompletionRequest → Except String ChatCompletion)
    (code : String) (doc_types : List String)
    (doc_format : String) (include_diagrams : Bool) (model : String) : ClientRun :=
  runCompletion svc (generate_documentation_request code doc_types doc_format include_diagrams model)

/-- The user prompt interpolated by `GroqClient.analyze_migration`
(src/utils/groq_client.py lines 351-436). -/
def analyze_migration_prompt (code : String) (migration_type : String) (migration_areas : List String)
    (migration_priority : String) (include_migration_code : Bool) : String :=
  "
You are an expert TIBCO BusinessWorks migration architect and modernization specialist. Analyze the following legacy TIBCO code and provide comprehensive migration guidance.

Legacy TIBCO Code/XML:
"
  ++ code
  ++ "

Migration Requirements:
- Migration Type: "
  ++ migration_type
  ++ "
- Focus Areas: "
  ++ String.intercalate ", " migration_areas
  ++ "
- Priority Level: "
  ++ migration_priority
  ++ "
- Include Migration Code: "
  ++ (if include_migration_code then "True" else "False")
  ++ "

Please provide detailed migration analysis covering:

1. **Compatibility Assessment**
   - Current version compatibility
   - Deprecated features identification
   - Breaking changes analysis

2. **Component Migration**
   - Component-by-component migration plan
   - Modern equivalents for deprecated components
   - API changes and updates

3. **Configuration Changes**
   - Required configuration updates
   - New configuration options
   - Environment-specific changes

4. **Architecture Modernization**
   - Cloud-native opportunities
   - Microservices potential
   - Container readiness assessment

5. **Security Updates**
   - Security improvements available
   - Authentication/authorization changes
   - Compliance considerations

6. **Performance Impact**
   - Performance improvements expected
   - Potential performance issues
   - Optimization opportunities

7. **Migration Roadmap**
   - Step-by-step migration plan
   - Risk assessment for each phase
   - Rollback strategies

8. **Code Updates**
   "
  ++ (if include_migration_code then "- Complete migrated code examples" else "- High-level code change guidance")
  ++ "
   - Required code modifications
   - Best practice implementations

9. **Testing Strategy**
   - Migration testing approach
   - Validation procedures
   - Regression testing recommendations

10. **Risk Mitigation**
    - Identified risks and mitigation strategies
    - Critical success factors
    - Contingency planning

Format with clear sections, actionable recommendations, and practical implementation guidance.
Focus on proven migration patterns and TIBCO best practices.
"

/-- The single `chat.completions.create` request issued by
`GroqClient.analyze_migration`. -/
def analyze_migration_request (code : String) (migration_type : String) (migration_areas : List String)
    (migration_priority : String) (include_migration_code : Bool) (model : String) : CompletionRequest :=
  { messages :=
      [ ⟨"system", "You are an expert TIBCO BusinessWorks migration architect specializing in version migrations and platform modernization."⟩
      , ⟨"user", analyze_migration_prompt code migration_type migration_areas migration_priority include_migration_code⟩ ]
  , model := model
  , temperature := 2 / 10
  , max_tokens := 4000 }

/-- `GroqClient.analyze_migration` (src/utils/groq_client.py lines 351-436). -/
def GroqClient.analyze_migration (svc : CompletionRequest → Except String ChatCompletion)
    (code : String) (migration_type : String) (migration_areas : List String)
    (migration_priority : String) (include_migration_code : Bool) (model : String) : ClientRun :=
  runCompletion svc (analyze_migration_request code migration_type migration_areas migration_priority include_migration_code model)

/-! ## Application layer (src/app.py)

Each tab handler is embedded as the pure decision logic that runs once its
action button is pressed: the two validation checks, the client call, and
the messages / output it displays.  The surrounding `try`/`except` of each
handler never fires in the embedding because every embedded operation is
total. -/

/-- Python `str.strip()` with no argument (whitespace modelled by
`pySpace`), as used in the `if not code_input.strip():` validations. -/
def pyStrip (s : String) : String :=
  String.mk (((s.data.dropWhile pySpace).reverse.dropWhile pySpace).reverse)

/-- Strict UTF-8 decoding of a byte sequence into code points, as
`bytes.decode('utf-8')` (errors='strict'): rejects stray continuation
bytes, truncated and non-minimal sequences, surrogates, and anything above
U+10FFFF. -/
def utf8Decode : List (Fin 256) → Option (List Nat)
  | [] => some []
  | b :: rest =>
    if b.val < 0x80 then
      (utf8Decode rest).map (fun t => b.val :: t)
    else if b.val < 0xC2 then none
    else if b.val < 0xE0 then
      match rest with
      | c1 :: rest2 =>
        if 0x80 ≤ c1.val && c1.val < 0xC0 then
          (utf8Decode rest2).map (fun t => ((b.val - 0xC0) * 64 + (c1.val - 0x80)) :: t)
        else none
      | [] => none
    else if b.val < 0xF0 then
      match rest with
      | c1 :: c2 :: rest3 =>
        if (0x80 ≤ c1.val && c1.val < 0xC0) && (0x80 ≤ c2.val && c2.val < 0xC0)
            && (b.val ≠ 0xE0 || 0xA0 ≤ c1.val) && (b.val ≠ 0xED || c1.val < 0xA0) then
          (utf8Decode rest3).map (fun t =>
            ((b.val - 0xE0) * 4096 + (c1.val - 0x80) * 64 + (c2.val - 0x80)) :: t)
        else none
      | _ => none
    else if b.val < 0xF5 then
      match rest with
      | c1 :: c2 :: c3 :: rest4 =>
        if (0x80 ≤ c1.val && c1.val < 0xC0) && (0x80 ≤ c2.val && c2.val < 0xC0)
            && (0x80 ≤ c3.val && c3.val < 0xC0)
            && (b.val ≠ 0xF0 || 0x90 ≤ c1.val) && (b.val ≠ 0xF4 || c1.val < 0x90) then
          (utf8Decode rest4).map (fun t =>
            ((b.val - 0xF0) * 262144 + (c1.val - 0x80) * 4096
              + (c2.val - 0x80) * 64 + (c3.val - 0x80)) :: t)
        else none
      | _ => none
    else none

/-- Latin-1 decoding, as `bytes.decode('latin-1')`: total, every byte maps
to the code point of the same value.  It returns an `Option` like any
fallible decoder; by construction it is `some` on every byte sequence. -/
def latin1Decode (bs : List (Fin 256)) : Option (List Nat) :=
  some (bs.map Fin.val)

/-- The upload decoding step shared by all five tabs (src/app.py lines
143-146): `file_content.decode('utf-8')` inside a `try`, falling back to
`file_content.decode('latin-1')` on `UnicodeDecodeError`. -/
def decodeUploaded (bs : List (Fin 256)) : Option (List Nat) :=
  match utf8Decode bs with
  | some s => some s
  | none => latin1Decode bs

/-- A constructed `GroqClient` instance (src/utils/groq_client.py lines
5-7): `instanceId` models Python object identity by allocation order. -/
structure GroqClient where
  instanceId : Nat
  api_key : String

/-- The process-wide state behind `@st.cache_resource`: the memoization
table and the next instance id. -/
structure ClientCache where
  table : List (String × GroqClient)
  nextId : Nat

/-- `get_groq_client` (src/app.py lines 15-17).  `@st.cache_resource` with
no ttl or size bound is the documented process-lifetime memoization keyed
by the argument: a hit returns the cached instance unchanged, a miss
constructs `GroqClient(api_key)` and records it. -/
def get_groq_client (st : ClientCache) (api_key : String) : GroqClient × ClientCache :=
  match st.table.find? (fun e => e.1 == api_key) with
  | some e => (e.2, st)
  | none =>
    let c : GroqClient := ⟨st.nextId, api_key⟩
    (c, ⟨st.table ++ [(api_key, c)], st.nextId + 1⟩)

/-- Observable outcome of one action-button press: the `st.error` messages
displayed, the completion requests issued, and the rendered result body. -/
structure HandlerRun where
  errors : List String
  requests : List CompletionRequest
  rendered : Option (List Char)

/-- The submit branch of the Test Case Generator tab (src/app.py lines
187-221): validation, the client call, and either the formatted rendering
or a failure message (`if test_cases:` is falsy both for `None` and for an
empty response string). -/
def test_case_generator_submit (svc : CompletionRequest → Except String ChatCompletion)
    (code_input : String) (test_types : List String)
    (complexity_level model : String) : HandlerRun :=
  if pyStrip code_input = "" then
    ⟨["⚠️ Please provide TIBCO code/XML to analyze"], [], none⟩
  else if test_types = [] then
    ⟨["⚠️ Please select at least one test scenario type"], [], none⟩
  else
    let run := GroqClient.generate_test_cases svc code_input test_types complexity_level model
    match run.result with
    | some test_cases =>
      if test_cases = "" then
        ⟨run.errors ++ ["❌ Failed to generate test cases. Please try again."], run.requests, none⟩
      else
        ⟨run.errors, run.requests, some (format_test_cases (some test_cases.data))⟩
    | none =>
      ⟨run.errors ++ ["❌ Failed to generate test cases. Please try again."], run.requests, none⟩

/-- The submit branch of the Code Complexity Analyzer tab (src/app.py lines
313-347). -/
def complexity_analyzer_submit (svc : CompletionRequest → Except String ChatCompletion)
    (code_input : String) (analysis_types : List String)
    (detail_level model : String) : HandlerRun :=
  if pyStrip code_input = "" then
    ⟨["⚠️ Please provide TIBCO code to analyze"], [], none⟩
  else if analysis_types = [] then
    ⟨["⚠️ Please select at least one analysis area"], [], none⟩
  else
    let run := GroqClient.analyze_complexity svc code_input analysis_types detail_level model
    match run.result with
    | some analysis_result =>
      if analysis_result = "" then
        ⟨run.errors ++ ["❌ Failed to analyze code complexity. Please try again."], run.requests, none⟩
      else
        ⟨run.errors, run.requests, some (format_complexity_analysis (some analysis_result.data))⟩
    | none =>
      ⟨run.errors ++ ["❌ Failed to analyze code complexity. Please try again."], run.requests, none⟩

/-- The submit branch of the Process Optimizer tab (src/app.py lines
441-468); the result is rendered unformatted. -/
def process_optimizer_submit (svc : CompletionRequest → Except String ChatCompletion)
    (code_input : String) (optimization_areas : List String)
    (optimization_level : String) (include_code_examples : Bool) (model : String) : HandlerRun :=
  if pyStrip code_input = "" then
    ⟨["⚠️ Please provide TIBCO code to optimize"], [], none⟩
  else if optimization_areas = [] then
    ⟨["⚠️ Please select at least one optimization area"], [], none⟩
  else
    let run := GroqClient.optimize_process svc code_input optimization_areas
      optimization_level include_code_examples model
    match run.result with
    | some optimization_result =>
      if optimization_result = "" then
        ⟨run.errors ++ ["❌ Failed to optimize process. Please try again."], run.requests, none⟩
      else
        ⟨run.errors, run.requests, some optimization_result.data⟩
    | none =>
      ⟨run.errors ++ ["❌ Failed to optimize process. Please try again."], run.requests, none⟩

/-- The submit branch of the Documentation Generator tab (src/app.py lines
559-594); the result is rendered unformatted (with a download button). -/
def documentation_generator_submit (svc : CompletionRequest → Except String ChatCompletion)
    (code_input : String) (doc_types : List String)
    (doc_format : String) (include_diagrams : Bool) (model : String) : HandlerRun :=
  if pyStrip code_input = "" then
    ⟨["⚠️ Please provide TIBCO code to document"], [], none⟩
  else if doc_types = [] then
    ⟨["⚠️ Please select at least one documentation type"], [], none⟩
  else
    let run := GroqClient.generate_documentation svc code_input doc_types
      doc_format include_diagrams model
    match run.result with
    | some documentation =>
      if documentation = "" then
        ⟨run.errors ++ ["❌ Failed to generate documentation. Please try again."], run.requests, none⟩
      else
        ⟨run.errors, run.requests, some documentation.data⟩
    | none =>
      ⟨run.errors ++ ["❌ Failed to generate documentation. Please try again."], run.requests, none⟩

/-- The submit branch of the Migration Assistant tab (src/app.py lines
697-725); the result is rendered unformatted. -/
def migration_assistant_submit (svc : CompletionRequest → Except String ChatCompletion)
    (code_input : String) (migration_type : String) (migration_areas : List String)
    (migration_priority : String) (include_migration_code : Bool) (model : String) : HandlerRun :=
  if pyStrip code_input = "" then
    ⟨["⚠️ Please provide legacy TIBCO code to analyze"], [], none⟩
  else if migration_areas = [] then
    ⟨["⚠️ Please select at least one migration area"], [], none⟩
  else
    let run := GroqClient.analyze_migration svc code_input migration_type migration_areas
      migration_priority include_migration_code model
    match run.result with
    | some migration_analysis =>
      if migration_analysis = "" then
        ⟨run.errors ++ ["❌ Failed to analyze migration. Please try again."], run.requests, none⟩
      else
        ⟨run.errors, run.requests, some migration_analysis.data⟩
    | none =>
      ⟨run.errors ++ ["❌ Failed to analyze migration. Please try again."], run.requests, none⟩


/-! ## Properties of the blank-line collapse -/

/-- Skipping mode discards exactly the leading newline run. -/
theorem collapseScan_true_eq (l : List Char) :
    collapseScan true l = collapseScan false (l.dropWhile (fun c => c = '\n')) := by
  induction l with
  | nil => rfl
  | cons c rest ih =>
    by_cases hc : c = '\n'
    · subst hc
      simpa [List.dropWhile_cons] using ih
    · simp [collapseScan, hc, List.dropWhile_cons]

/-- The scanner transcribed from `re.sub(r'\n\n\n+', '\n\n', s)` computes
exactly the run collapse described by the specification. -/
theorem collapse_eq_spec (l : List Char) : collapseScan false l = collapseRunsSpec l := by
  induction l using collapseRunsSpec.induct with
  | case1 => simp [collapseScan, collapseRunsSpec]
  | case2 rest ih =>
    rcases rest with _ | ⟨c2, rest2⟩
    · simp [collapseScan, collapseRunsSpec]
    · by_cases h2 : c2 = '\n'
      · subst h2
        rcases rest2 with _ | ⟨c3, rest3⟩
        · simp [collapseScan, collapseRunsSpec, List.takeWhile_cons, List.dropWhile_cons]
        · by_cases h3 : c3 = '\n'
          · subst h3
            have hskip := collapseScan_true_eq rest3
            simp only [List.dropWhile_cons, decide_True, if_true] at ih
            simp only [collapseRunsSpec, List.takeWhile_cons, List.dropWhile_cons,
              decide_True, if_true, List.length_cons]
            show '\n' :: '\n' :: collapseScan true rest3 = _
            rw [hskip, ih]
            have hm : min ((rest3.takeWhile fun x => decide (x = '\n')).length + 1 + 1 + 1) 2
                = 2 := by omega
            rw [hm]
            rfl
          · simp [collapseScan, collapseRunsSpec, h3] at ih
            simp [collapseScan, collapseRunsSpec, h3, List.takeWhile_cons,
              List.dropWhile_cons, ih]
      · simp [collapseScan, collapseRunsSpec, h2] at ih
        simp [collapseScan, collapseRunsSpec, h2, List.takeWhile_cons,
          List.dropWhile_cons, ih]
  | case3 c rest hc ih =>
    simp [collapseScan, collapseRunsSpec, hc, ih]

theorem startsTwoNl_nl (l : List Char) : startsTwoNl ('\n' :: l) = headIsNl l := by
  rcases l with _ | ⟨c, r⟩
  · rfl
  · by_cases hc : c = '\n'
    · subst hc; rfl
    · simp [startsTwoNl, headIsNl, hc]

theorem startsTwoNl_of_head (l : List Char) (h : headIsNl l = false) :
    startsTwoNl l = false := by
  rcases l with _ | ⟨c, r⟩
  · rfl
  · by_cases hc : c = '\n'
    · subst hc; simp [headIsNl] at h
    · simp [startsTwoNl, hc]

theorem headIsNl_dropWhile (l : List Char) :
    headIsNl (l.dropWhile (fun c => c = '\n')) = false := by
  induction l with
  | nil => rfl
  | cons c rest ih =>
    by_cases hc : c = '\n'
    · simpa [List.dropWhile_cons, hc] using ih
    · simp [List.dropWhile_cons, hc, headIsNl]

theorem headIsNl_spec (l : List Char) (h : headIsNl l = false) :
    headIsNl (collapseRunsSpec l) = false := by
  rcases l with _ | ⟨c, r⟩
  · simp [collapseRunsSpec, headIsNl]
  · by_cases hc : c = '\n'
    · subst hc; simp [headIsNl] at h
    · simp [collapseRunsSpec, hc, headIsNl]

/-- The collapse never leaves three consecutive newlines. -/
theorem hasTriple_spec (l : List Char) : hasTriple (collapseRunsSpec l) = false := by
  induction l using collapseRunsSpec.induct with
  | case1 => simp [collapseRunsSpec, hasTriple]
  | case2 rest ih =>
    have hhead : headIsNl (collapseRunsSpec
        (List.dropWhile (fun x => decide (x = '\n')) ('\n' :: rest))) = false :=
      headIsNl_spec _ (headIsNl_dropWhile _)
    rw [collapseRunsSpec]
    simp only [if_pos rfl]
    simp only [List.dropWhile_cons, decide_True, if_true] at ih hhead ⊢
    rcases hm : min ((('\n' :: rest).takeWhile (fun x => x = '\n')).length) 2 with _ | m
    · simp [List.takeWhile_cons] at hm
    · rcases m with _ | m
      · simp only [List.replicate, List.cons_append, List.nil_append]
        simp only [hasTriple]
        rw [startsTwoNl_of_head _ hhead]
        simp [ih]
      · rcases m with _ | m
        · simp only [List.replicate, List.cons_append, List.nil_append]
          simp only [hasTriple]
          rw [startsTwoNl_nl, headIsNl_spec _ (headIsNl_dropWhile _),
            startsTwoNl_of_head _ hhead]
          simp [ih]
        · exfalso
          omega
  | case3 c rest hc ih =>
    simp [collapseRunsSpec, hc, hasTriple, ih]

/-- `collapseBlankLines` never leaves three consecutive newlines. -/
theorem hasTriple_collapseBlankLines (l : List Char) :
    hasTriple (collapseBlankLines l) = false := by
  show hasTriple (collapseScan false l) = false
  rw [collapse_eq_spec]
  exact hasTriple_spec l

/-! ## Concrete evaluations checked against the Python implementation -/

example : makeHeadersBold "#\n\nabc".data = "**abc**".data := by decide
example : makeHeadersBold "###".data = "**#**".data := by decide
example : makeHeadersBold "## \n".data = "** **\n".data := by decide
example : makeHeadersBold "# \t\n\n".data = "**\t**\n\n".data := by decide
example : makeHeadersBold "#\n".data = "#\n".data := by decide
example : makeHeadersBold "####x".data = "**#x**".data := by decide
example : makeHeadersBold "# \n \n\n".data = "** **\n\n".data := by decide
example : makeHeadersBold "a\n## x\nb".data = "a\n**x**\nb".data := by decide
example : formatNumberedSections "1. ***bold***".data = "### 1. *bold*".data := by decide
example : formatNumberedSections "1.\n\n**X**".data = "### 1. X".data := by decide
example : formatNumberedSections "12.**a*b**c".data = "### 12. a*bc".data := by decide
example : formatNumberedSections "1. **X".data = "1. **X".data := by decide
example : collapseBlankLines "a\n\n\n\n\nb\n\n\nc\n\nd".data = "a\n\nb\n\nc\n\nd".data := by
  decide
example : highlightScores "Maintainability Score: 7/10".data
    = "`Maintainability Score: 7/10`".data := by decide
example : highlightScores "b score 5.".data = "`b score 5`.".data := by decide
example : highlightScores "a score: x".data = "a score: x".data := by decide
example : highlightComplexity "supercomplexityMEDIUM".data
    = "super`complexityMEDIUM`".data := by decide
example : highlightComplexity "complexity:  Low x".data
    = "`complexity:  Low` x".data := by decide
example : formatRiskLevels "HIGH-RISK".data = "**HIGH**-RISK".data := by decide
example : formatRiskLevels "CRITICALLY".data = "CRITICALLY".data := by decide
example : formatRiskLevels "LOW MEDIUM".data = "**LOW** **MEDIUM**".data := by decide
example : format_test_cases (some "#\n\n\n\n\nabc".data) = "**abc**".data := by decide
example : format_complexity_analysis (some "HIGH".data) = "**HIGH**".data := by decide
example : format_complexity_analysis (some "**HIGH**".data) = "****HIGH****".data := by
  decide
example :
    format_complexity_analysis
      (some "# Report\n\n\n\nMaintainability score: 7/10\ncomplexity: HIGH".data)
    = "**Report**\n\n`Maintainability score: 7/10`\n`complexity: **HIGH**`".data := by
  decide


/-! ## Helper facts about the client and the cache -/

/-- Every run of the shared completion body issues exactly the one request
it was given. -/
theorem runCompletion_requests (svc : CompletionRequest → Except String ChatCompletion)
    (req : CompletionRequest) : (runCompletion svc req).requests = [req] := by
  unfold runCompletion
  cases svc req with
  | error e => rfl
  | ok resp =>
    cases resp with
    | mk choices => cases choices <;> rfl

/-- Appending a matching entry to a table with no match makes `find?` return
that entry. -/
theorem find_in_appended {α : Type} (p : α → Bool) (l : List α) (x : α)
    (h : l.find? p = none) (hx : p x = true) : (l ++ [x]).find? p = some x := by
  induction l with
  | nil => simp [List.find?, hx]
  | cons a t ih =>
    by_cases hpa : p a = true
    · rw [List.find?_cons_of_pos _ hpa] at h
      exact absurd h (by simp)
    · rw [List.find?_cons_of_neg _ (by simpa using hpa)] at h
      rw [List.cons_append, List.find?_cons_of_neg _ (by simpa using hpa)]
      exact ih h

/-! ## The claims -/

/-- Claim C9: for each falsy input (`None` or the empty string) the
formatters return their fixed placeholder strings, which are not empty. -/
theorem c9_falsy_placeholders :
    format_test_cases none = noTestCasesMsg ∧
    format_test_cases (some []) = noTestCasesMsg ∧
    format_complexity_analysis none = noAnalysisMsg ∧
    format_complexity_analysis (some []) = noAnalysisMsg ∧
    noTestCasesMsg = "No test cases generated.".data ∧
    noAnalysisMsg = "No analysis results generated.".data ∧
    noTestCasesMsg ≠ [] ∧ noAnalysisMsg ≠ [] := by
  refine ⟨rfl, rfl, rfl, rfl, rfl, rfl, by decide, by decide⟩

/-- Claim C10: for every input (including the falsy ones), the output of
either formatter contains no run of three or more consecutive newline
characters: the blank-line collapse is the last substitution applied and
the placeholders contain no newline. -/
theorem c10_no_triple_newline (raw : Option (List Char)) :
    hasTriple (format_test_cases raw) = false ∧
    hasTriple (format_complexity_analysis raw) = false := by
  constructor
  · rcases raw with _ | s
    · decide
    · by_cases hs : s = []
      · subst hs; decide
      · simp only [format_test_cases]
        rw [if_neg hs]
        exact hasTriple_collapseBlankLines _
  · rcases raw with _ | s
    · decide
    · by_cases hs : s = []
      · subst hs; decide
      · simp only [format_complexity_analysis]
        rw [if_neg hs]
        exact hasTriple_collapseBlankLines _

/-- Claim C1 (counterexample): `"**HIGH**"` is itself an output of
`format_complexity_analysis` (namely of `"HIGH"`), i.e. already
well-formatted text, yet applying the formatter twice to it differs from
applying it once: each application wraps the risk word in one more `**`
pair, giving `"****HIGH****"` and then `"******HIGH******"`. -/
theorem c1_counterexample :
    wellFormattedComplexity "**HIGH**".data ∧
    format_complexity_analysis (some "**HIGH**".data) = "****HIGH****".data ∧
    format_complexity_analysis (some (format_complexity_analysis (some "**HIGH**".data)))
      ≠ format_complexity_analysis (some "**HIGH**".data) :=
  ⟨⟨some "HIGH".data, by decide⟩, by decide, by decide⟩

/-- Claim C1 (amended): the formatters are idempotent on their fixed
points: when a string is left unchanged by `format_test_cases`
(respectively `format_complexity_analysis`), applying the formatter twice
agrees with applying it once.  They are not idempotent on all of their own
outputs: `format_complexity_analysis` re-wraps risk-level, score and
complexity markup on every application (see the counterexample), and
`format_test_cases` turns its own numbered-section output `### n. x` into
`**n. x**` on the next application. -/
theorem c1_idempotent_on_fixed_points (s t : List Char)
    (hs : format_test_cases (some s) = s)
    (ht : format_complexity_analysis (some t) = t) :
    format_test_cases (some (format_test_cases (some s))) = format_test_cases (some s) ∧
    format_complexity_analysis (some (format_complexity_analysis (some t)))
      = format_complexity_analysis (some t) := by
  constructor
  · rw [hs]; exact hs
  · rw [ht]; exact ht

/-- Witness for the amended claim C1 at the concrete fixed point
`"hello"`. -/
theorem c1_idempotent_on_fixed_points_witness :
    format_test_cases (some (format_test_cases (some "hello".data)))
        = format_test_cases (some "hello".data) ∧
    format_complexity_analysis (some (format_complexity_analysis (some "hello".data)))
        = format_complexity_analysis (some "hello".data) :=
  c1_idempotent_on_fixed_points "hello".data "hello".data (by decide) (by decide)

/-- Claim C3 (counterexample): the input `"#\n\n\n\n\nabc"` contains a run
of five newlines — more than three consecutive blank lines — yet the output
of `format_test_cases` contains no newline at all: the `\s*` of the header
substitution spans the whole run before the blank-line collapse is ever
applied, so the run is not collapsed to one blank line. -/
theorem c3_counterexample :
    hasFourNl "#\n\n\n\n\nabc".data = true ∧
    format_test_cases (some "#\n\n\n\n\nabc".data) = "**abc**".data ∧
    ("**abc**".data.all fun c => c ≠ '\n') = true :=
  ⟨by decide, by decide, by decide⟩

/-- Claim C3 (amended): the blank-line collapse is the final substitution
of both formatters, and it performs exactly the specified collapse on the
text that reaches it: every maximal run of three or more newlines becomes
exactly two newlines (one blank line) and shorter runs are unchanged
(`collapseRunsSpec`).  The guarantee is about the intermediate text, not
the raw input: an earlier substitution may consume a newline run entirely,
as the counterexample shows. -/
theorem c3_collapse_of_intermediate (s : List Char) (hs : s ≠ []) :
    (∀ l, collapseBlankLines l = collapseRunsSpec l) ∧
    format_test_cases (some s)
      = collapseRunsSpec (formatNumberedSections (makeHeadersBold s)) ∧
    format_complexity_analysis (some s)
      = collapseRunsSpec (formatRiskLevels (highlightComplexity (highlightScores
          (formatNumberedSections (makeHeadersBold s))))) := by
  refine ⟨fun l => collapse_eq_spec l, ?_, ?_⟩
  · simp only [format_test_cases]
    rw [if_neg hs]
    exact collapse_eq_spec _
  · simp only [format_complexity_analysis]
    rw [if_neg hs]
    exact collapse_eq_spec _

/-- Witness for the amended claim C3 at the concrete input `"x"`. -/
theorem c3_collapse_of_intermediate_witness :
    (∀ l, collapseBlankLines l = collapseRunsSpec l) ∧
    format_test_cases (some "x".data)
      = collapseRunsSpec (formatNumberedSections (makeHeadersBold "x".data)) ∧
    format_complexity_analysis (some "x".data)
      = collapseRunsSpec (formatRiskLevels (highlightComplexity (highlightScores
          (formatNumberedSections (makeHeadersBold "x".data))))) :=
  c3_collapse_of_intermediate "x".data (by decide)


/-- Claim C2: for each of the five client operations, a raising remote call
is caught at the operation boundary: a `Groq API Error` message is displayed
and `None` is returned; a successful call returns the response text.  No
exception propagates: each embedded operation is a total function into
`ClientRun`, mirroring the bare `except Exception` around the whole call
site. -/
theorem c2_remote_errors_caught
    (svcE svcOk : CompletionRequest → Except String ChatCompletion)
    (e : String) (choice : Choice) (rest : List Choice)
    (hE : ∀ r, svcE r = Except.error e)
    (hOk : ∀ r, svcOk r = Except.ok ⟨choice :: rest⟩)
    (code complexity_level detail_level optimization_level doc_format migration_type
      migration_priority model : String)
    (test_types analysis_types optimization_areas doc_types migration_areas : List String)
    (include_code_examples include_diagrams include_migration_code : Bool) :
    (GroqClient.generate_test_cases svcE code test_types complexity_level model
        = ⟨[generate_test_cases_request code test_types complexity_level model],
           ["Groq API Error: " ++ e], none⟩
      ∧ GroqClient.generate_test_cases svcOk code test_types complexity_level model
        = ⟨[generate_test_cases_request code test_types complexity_level model],
           [], some choice.message.content⟩) ∧
    (GroqClient.analyze_complexity svcE code analysis_types detail_level model
        = ⟨[analyze_complexity_request code analysis_types detail_level model],
           ["Groq API Error: " ++ e], none⟩
      ∧ GroqClient.analyze_complexity svcOk code analysis_types detail_level model
        = ⟨[analyze_complexity_request code analysis_types detail_level model],
           [], some choice.message.content⟩) ∧
    (GroqClient.optimize_process svcE code optimization_areas optimization_level
          include_code_examples model
        = ⟨[optimize_process_request code optimization_areas optimization_level
             include_code_examples model], ["Groq API Error: " ++ e], none⟩
      ∧ GroqClient.optimize_process svcOk code optimization_areas optimization_level
          include_code_examples model
        = ⟨[optimize_process_request code optimization_areas optimization_level
             include_code_examples model], [], some choice.message.content⟩) ∧
    (GroqClient.generate_documentation svcE code doc_types doc_format
          include_diagrams model
        = ⟨[generate_documentation_request code doc_types doc_format
             include_diagrams model], ["Groq API Error: " ++ e], none⟩
      ∧ GroqClient.generate_documentation svcOk code doc_types doc_format
          include_diagrams model
        = ⟨[generate_documentation_request code doc_types doc_format
             include_diagrams model], [], some choice.message.content⟩) ∧
    (GroqClient.analyze_migration svcE code migration_type migration_areas
          migration_priority include_migration_code model
        = ⟨[analyze_migration_request code migration_type migration_areas
             migration_priority include_migration_code model],
           ["Groq API Error: " ++ e], none⟩
      ∧ GroqClient.analyze_migration svcOk code migration_type migration_areas
          migration_priority include_migration_code model
        = ⟨[analyze_migration_request code migration_type migration_areas
             migration_priority include_migration_code model],
           [], some choice.message.content⟩) := by
  refine ⟨⟨?_, ?_⟩, ⟨?_, ?_⟩, ⟨?_, ?_⟩, ⟨?_, ?_⟩, ⟨?_, ?_⟩⟩ <;>
    simp [GroqClient.generate_test_cases, GroqClient.analyze_complexity,
      GroqClient.optimize_process, GroqClient.generate_documentation,
      GroqClient.analyze_migration, runCompletion, hE, hOk]

/-- Witness for claim C2: a client whose every call raises `"boom"`, and one
whose every call succeeds with one choice `"OK"`, at concrete arguments. -/
theorem c2_remote_errors_caught_witness :
    GroqClient.generate_test_cases (fun _ => Except.error "boom") "<process/>"
        ["Happy Path Tests"] "Basic" "llama-3.3-70b-versatile"
      = ⟨[generate_test_cases_request "<process/>" ["Happy Path Tests"] "Basic"
           "llama-3.3-70b-versatile"], ["Groq API Error: " ++ "boom"], none⟩ ∧
    GroqClient.generate_test_cases (fun _ => Except.ok ⟨[⟨⟨"OK"⟩⟩]⟩) "<process/>"
        ["Happy Path Tests"] "Basic" "llama-3.3-70b-versatile"
      = ⟨[generate_test_cases_request "<process/>" ["Happy Path Tests"] "Basic"
           "llama-3.3-70b-versatile"], [], some "OK"⟩ :=
  (c2_remote_errors_caught (fun _ => Except.error "boom")
    (fun _ => Except.ok ⟨[⟨⟨"OK"⟩⟩]⟩) "boom" ⟨⟨"OK"⟩⟩ []
    (fun _ => rfl) (fun _ => rfl)
    "<process/>" "Basic" "Detailed" "Moderate" "Markdown" "TIBCO BW 5.x to 6.x"
    "High Priority" "llama-3.3-70b-versatile"
    ["Happy Path Tests"] ["Cyclomatic Complexity"] ["Performance Tuning"]
    ["Technical Overview"] ["API Compatibility"] true true true).1

/-- Claim C7: on the success path each client operation returns exactly the
content of the first choice of the completion response, with no
transformation applied inside the client. -/
theorem c7_success_returns_content_unmodified
    (svc : CompletionRequest → Except String ChatCompletion)
    (choice : Choice) (rest : List Choice)
    (hOk : ∀ r, svc r = Except.ok ⟨choice :: rest⟩)
    (code complexity_level detail_level optimization_level doc_format migration_type
      migration_priority model : String)
    (test_types analysis_types optimization_areas doc_types migration_areas : List String)
    (include_code_examples include_diagrams include_migration_code : Bool) :
    (GroqClient.generate_test_cases svc code test_types complexity_level model).result
        = some choice.message.content ∧
    (GroqClient.analyze_complexity svc code analysis_types detail_level model).result
        = some choice.message.content ∧
    (GroqClient.optimize_process svc code optimization_areas optimization_level
        include_code_examples model).result = some choice.message.content ∧
    (GroqClient.generate_documentation svc code doc_types doc_format
        include_diagrams model).result = some choice.message.content ∧
    (GroqClient.analyze_migration svc code migration_type migration_areas
        migration_priority include_migration_code model).result
        = some choice.message.content := by
  refine ⟨?_, ?_, ?_, ?_, ?_⟩ <;>
    simp [GroqClient.generate_test_cases, GroqClient.analyze_complexity,
      GroqClient.optimize_process, GroqClient.generate_documentation,
      GroqClient.analyze_migration, runCompletion, hOk]

/-- Witness for claim C7 at a concrete single-choice response `"OK"`. -/
theorem c7_success_returns_content_unmodified_witness :
    (GroqClient.generate_test_cases (fun _ => Except.ok ⟨[⟨⟨"OK"⟩⟩]⟩) "<process/>"
        ["Happy Path Tests"] "Basic" "llama-3.3-70b-versatile").result = some "OK" :=
  (c7_success_returns_content_unmodified (fun _ => Except.ok ⟨[⟨⟨"OK"⟩⟩]⟩) ⟨⟨"OK"⟩⟩ []
    (fun _ => rfl)
    "<process/>" "Basic" "Detailed" "Moderate" "Markdown" "TIBCO BW 5.x to 6.x"
    "High Priority" "llama-3.3-70b-versatile"
    ["Happy Path Tests"] ["Cyclomatic Complexity"] ["Performance Tuning"]
    ["Technical Overview"] ["API Compatibility"] true true true).1

/-- Claim C6: every client operation issues exactly one completion request
per invocation, and each request carries the per-action constants:
temperature between 0.2 and 0.3 and maximum output between 3000 and 4000
tokens (concretely, temperature 3/10 and 4000 for test cases and
documentation, 2/10 and 4000 for the other three). -/
theorem c6_one_request_fixed_params
    (svc : CompletionRequest → Except String ChatCompletion)
    (code complexity_level detail_level optimization_level doc_format migration_type
      migration_priority model : String)
    (test_types analysis_types optimization_areas doc_types migration_areas : List String)
    (include_code_examples include_diagrams include_migration_code : Bool) :
    (∃ r, (GroqClient.generate_test_cases svc code test_types complexity_level
        model).requests = [r]
      ∧ (2 : ℚ)/10 ≤ r.temperature ∧ r.temperature ≤ (3 : ℚ)/10
      ∧ 3000 ≤ r.max_tokens ∧ r.max_tokens ≤ 4000) ∧
    (∃ r, (GroqClient.analyze_complexity svc code analysis_types detail_level
        model).requests = [r]
      ∧ (2 : ℚ)/10 ≤ r.temperature ∧ r.temperature ≤ (3 : ℚ)/10
      ∧ 3000 ≤ r.max_tokens ∧ r.max_tokens ≤ 4000) ∧
    (∃ r, (GroqClient.optimize_process svc code optimization_areas optimization_level
        include_code_examples model).requests = [r]
      ∧ (2 : ℚ)/10 ≤ r.temperature ∧ r.temperature ≤ (3 : ℚ)/10
      ∧ 3000 ≤ r.max_tokens ∧ r.max_tokens ≤ 4000) ∧
    (∃ r, (GroqClient.generate_documentation svc code doc_types doc_format
        include_diagrams model).requests = [r]
      ∧ (2 : ℚ)/10 ≤ r.temperature ∧ r.temperature ≤ (3 : ℚ)/10
      ∧ 3000 ≤ r.max_tokens ∧ r.max_tokens ≤ 4000) ∧
    (∃ r, (GroqClient.analyze_migration svc code migration_type migration_areas
        migration_priority include_migration_code model).requests = [r]
      ∧ (2 : ℚ)/10 ≤ r.temperature ∧ r.temperature ≤ (3 : ℚ)/10
      ∧ 3000 ≤ r.max_tokens ∧ r.max_tokens ≤ 4000) := by
  refine ⟨⟨_, runCompletion_requests _ _, ?_, ?_, ?_, ?_⟩,
    ⟨_, runCompletion_requests _ _, ?_, ?_, ?_, ?_⟩,
    ⟨_, runCompletion_requests _ _, ?_, ?_, ?_, ?_⟩,
    ⟨_, runCompletion_requests _ _, ?_, ?_, ?_, ?_⟩,
    ⟨_, runCompletion_requests _ _, ?_, ?_, ?_, ?_⟩⟩ <;>
  · first
    | norm_num [generate_test_cases_request, analyze_complexity_request,
        optimize_process_request, generate_documentation_request,
        analyze_migration_request]

/-- Claim C5: upload decoding is total.  UTF-8 decoding is attempted first
and its result is kept when it succeeds; on a UTF-8 failure the permissive
Latin-1 decoding is used, which succeeds on every byte sequence by mapping
each byte to the code point of its value — so decoding never raises. -/
theorem c5_decoding_never_raises (bs good : List (Fin 256)) (s : List Nat)
    (hGood : utf8Decode good = some s) (hBad : utf8Decode bs = none) :
    (∀ cs : List (Fin 256), (decodeUploaded cs).isSome = true) ∧
    decodeUploaded good = some s ∧
    decodeUploaded bs = latin1Decode bs ∧
    latin1Decode bs = some (bs.map Fin.val) := by
  refine ⟨?_, ?_, ?_, rfl⟩
  · intro cs
    unfold decodeUploaded
    cases h : utf8Decode cs <;> simp [latin1Decode]
  · unfold decodeUploaded
    rw [hGood]
  · unfold decodeUploaded
    rw [hBad]

/-- Witness for claim C5: the byte `0xFF` is invalid UTF-8 and decodes via
Latin-1; the byte `0x68` (`h`) is valid UTF-8. -/
theorem c5_decoding_never_raises_witness :
    (∀ cs : List (Fin 256), (decodeUploaded cs).isSome = true) ∧
    decodeUploaded [(104 : Fin 256)] = some [104] ∧
    decodeUploaded [(255 : Fin 256)] = latin1Decode [(255 : Fin 256)] ∧
    latin1Decode [(255 : Fin 256)] = some ([(255 : Fin 256)].map Fin.val) :=
  c5_decoding_never_raises [(255 : Fin 256)] [(104 : Fin 256)] [104]
    (by decide) (by decide)

/-- Claim C8: the client handle is memoized per credential: calling
`get_groq_client` twice with the same key returns the same `GroqClient`
instance, and the second call leaves the cache state unchanged, so the
client is constructed at most once per distinct credential. -/
theorem c8_client_memoized (st : ClientCache) (key : String) :
    (get_groq_client (get_groq_client st key).2 key).1 = (get_groq_client st key).1 ∧
    (get_groq_client (get_groq_client st key).2 key).2 = (get_groq_client st key).2 := by
  cases h : st.table.find? (fun entry => entry.1 == key) with
  | some entry =>
    constructor <;> simp [get_groq_client, h]
  | none =>
    have hx : ((fun (entry : String × GroqClient) => entry.1 == key)
        (key, (⟨st.nextId, key⟩ : GroqClient))) = true := by simp
    have h2 := find_in_appended (fun entry => entry.1 == key) st.table
      (key, ⟨st.nextId, key⟩) h hx
    constructor <;> simp [get_groq_client, h, h2]


/-- Claim C4: every tab handler checks its two preconditions before calling
the client: with whitespace-only input it displays the validation message
and issues no request (whatever the option list); with non-blank input but
an empty option list it displays the option validation message and issues
no request; with both preconditions met it issues exactly the one request
of the corresponding client operation. -/
theorem c4_validation_gates_requests
    (svc : CompletionRequest → Except String ChatCompletion)
    (codeA codeB : String) (hA : pyStrip codeA = "") (hB : pyStrip codeB ≠ "")
    (opts anyOpts : List String) (hOpts : opts ≠ [])
    (complexity_level detail_level optimization_level doc_format migration_type
      migration_priority model : String)
    (include_code_examples include_diagrams include_migration_code : Bool) :
    (test_case_generator_submit svc codeA anyOpts complexity_level model
        = ⟨["⚠️ Please provide TIBCO code/XML to analyze"], [], none⟩
      ∧ test_case_generator_submit svc codeB [] complexity_level model
        = ⟨["⚠️ Please select at least one test scenario type"], [], none⟩
      ∧ (test_case_generator_submit svc codeB opts complexity_level model).requests
        = [generate_test_cases_request codeB opts complexity_level model]) ∧
    (complexity_analyzer_submit svc codeA anyOpts detail_level model
        = ⟨["⚠️ Please provide TIBCO code to analyze"], [], none⟩
      ∧ complexity_analyzer_submit svc codeB [] detail_level model
        = ⟨["⚠️ Please select at least one analysis area"], [], none⟩
      ∧ (complexity_analyzer_submit svc codeB opts detail_level model).requests
        = [analyze_complexity_request codeB opts detail_level model]) ∧
    (process_optimizer_submit svc codeA anyOpts optimization_level
          include_code_examples model
        = ⟨["⚠️ Please provide TIBCO code to optimize"], [], none⟩
      ∧ process_optimizer_submit svc codeB [] optimization_level
          include_code_examples model
        = ⟨["⚠️ Please select at least one optimization area"], [], none⟩
      ∧ (process_optimizer_submit svc codeB opts optimization_level
          include_code_examples model).requests
        = [optimize_process_request codeB opts optimization_level
            include_code_examples model]) ∧
    (documentation_generator_submit svc codeA anyOpts doc_format
          include_diagrams model
        = ⟨["⚠️ Please provide TIBCO code to document"], [], none⟩
      ∧ documentation_generator_submit svc codeB [] doc_format
          include_diagrams model
        = ⟨["⚠️ Please select at least one documentation type"], [], none⟩
      ∧ (documentation_generator_submit svc codeB opts doc_format
          include_diagrams model).requests
        = [generate_documentation_request codeB opts doc_format
            include_diagrams model]) ∧
    (migration_assistant_submit svc codeA migration_type anyOpts
          migration_priority include_migration_code model
        = ⟨["⚠️ Please provide legacy TIBCO code to analyze"], [], none⟩
      ∧ migration_assistant_submit svc codeB migration_type []
          migration_priority include_migration_code model
        = ⟨["⚠️ Please select at least one migration area"], [], none⟩
      ∧ (migration_assistant_submit svc codeB migration_type opts
          migration_priority include_migration_code model).requests
        = [analyze_migration_request codeB migration_type opts
            migration_priority include_migration_code model]) := by
  refine ⟨⟨?_, ?_, ?_⟩, ⟨?_, ?_, ?_⟩, ⟨?_, ?_, ?_⟩, ⟨?_, ?_, ?_⟩, ⟨?_, ?_, ?_⟩⟩
  case _ => unfold test_case_generator_submit; rw [if_pos hA]
  case _ => unfold test_case_generator_submit; rw [if_neg hB, if_pos rfl]
  case _ =>
    simp only [test_case_generator_submit]
    rw [if_neg hB, if_neg hOpts]
    split <;> (try split) <;> exact runCompletion_requests _ _
  case _ => unfold complexity_analyzer_submit; rw [if_pos hA]
  case _ => unfold complexity_analyzer_submit; rw [if_neg hB, if_pos rfl]
  case _ =>
    simp only [complexity_analyzer_submit]
    rw [if_neg hB, if_neg hOpts]
    split <;> (try split) <;> exact runCompletion_requests _ _
  case _ => unfold process_optimizer_submit; rw [if_pos hA]
  case _ => unfold process_optimizer_submit; rw [if_neg hB, if_pos rfl]
  case _ =>
    simp only [process_optimizer_submit]
    rw [if_neg hB, if_neg hOpts]
    split <;> (try split) <;> exact runCompletion_requests _ _
  case _ => unfold documentation_generator_submit; rw [if_pos hA]
  case _ => unfold documentation_generator_submit; rw [if_neg hB, if_pos rfl]
  case _ =>
    simp only [documentation_generator_submit]
    rw [if_neg hB, if_neg hOpts]
    split <;> (try split) <;> exact runCompletion_requests _ _
  case _ => unfold migration_assistant_submit; rw [if_pos hA]
  case _ => unfold migration_assistant_submit; rw [if_neg hB, if_pos rfl]
  case _ =>
    simp only [migration_assistant_submit]
    rw [if_neg hB, if_neg hOpts]
    split <;> (try split) <;> exact runCompletion_requests _ _

/-- Witness for claim C4: whitespace-only input yields no request, while a
non-blank input and a non-empty option list yield exactly one request. -/
theorem c4_validation_gates_requests_witness :
    (test_case_generator_submit (fun _ => Except.error "boom") "   "
        ["Edge Cases"] "Basic" "m").requests = [] ∧
    (test_case_generator_submit (fun _ => Except.error "boom") "<process/>"
        ["Happy Path Tests"] "Basic" "m").requests
      = [generate_test_cases_request "<process/>" ["Happy Path Tests"] "Basic" "m"] := by
  have h := c4_validation_gates_requests (fun _ => Except.error "boom") "   " "<process/>"
    (by decide) (by decide) ["Happy Path Tests"] ["Edge Cases"] (by decide)
    "Basic" "Detailed" "Moderate" "Markdown" "TIBCO BW 5.x to 6.x" "High Priority" "m"
    true true false
  exact ⟨by rw [h.1.1], h.1.2.2⟩


end TibcoGroq
